import Mathlib

/-!
Shallow embedding of `src/src/bootloaders/shim-systemd.c` from clr-boot-manager.

The C file implements the shim + systemd-boot two-stage bootloader plugin.
Its observable state is:
  * the ESP filesystem (files with byte contents, directories), manipulated
    through the collaborator primitives `nc_file_exists`, `cbm_files_match`,
    `copy_file_atomic` and `nc_mkdir_p`;
  * the firmware NVRAM boot-record set, manipulated through
    `bootvar_has_boot_rec` and `bootvar_create`;
  * the plugin's file-scope globals: the resolved path strings, the
    image-mode flag `is_image_mode`, and the tri-state memoized cache
    `has_boot_rec` (initialized to -1 = unknown).

Failure of the out-of-scope collaborators (copy / mkdir / bootvar_create)
is modelled by explicit failure oracles carried in the state, so that the
error paths of the C code are reachable in the model.  `copy_file_atomic`
is atomic per the collaborator contract: on failure the destination is
unchanged.  A `Trace` records the externally observable firmware
interactions (queries and creation calls) and diagnostic notices.
-/

abbrev BmPath := String
abbrev Bytes := List Nat

/-- Filesystem state: files (path to byte contents), created directories,
and failure oracles for the copy and mkdir collaborator primitives. -/
structure FSState where
  files : List (BmPath × Bytes)
  dirs : List BmPath
  copyFail : List (BmPath × BmPath)
  mkdirFail : List BmPath
deriving Repr, DecidableEq

/-- Firmware NVRAM state: set of ESP-relative paths that have a boot
record, and a failure oracle for `bootvar_create`. -/
structure FWState where
  bootRecs : List BmPath
  createFail : Bool
deriving Repr, DecidableEq

/-- The full external world the plugin acts on. -/
structure World where
  fs : FSState
  fw : FWState
deriving Repr, DecidableEq

/-- The file-scope globals of shim-systemd.c that the lifecycle operations
read and write: resolved paths (set up by `shim_systemd_init`), the mode
flag, and the memoized boot-record tri-state (`-1` = not yet queried). -/
structure PluginState where
  shim_src : BmPath
  systemd_src : BmPath
  shim_dst_host : BmPath
  systemd_dst_host : BmPath
  shim_dst_esp : BmPath
  efi_fallback_dst_host : BmPath
  kernel_dst_host : BmPath
  boot_root : BmPath
  is_image_mode : Bool
  has_boot_rec : Int
deriving Repr, DecidableEq

/-- Observable firmware-interaction trace of one operation:
number of `bootvar_has_boot_rec` queries, number of `bootvar_create`
calls, and diagnostic notices printed to stderr. -/
structure Trace where
  queries : Nat
  creates : Nat
  notices : List String
deriving Repr, DecidableEq

def Trace.zero : Trace := ⟨0, 0, []⟩

/-- C truthiness of an int. -/
def cTrue (n : Int) : Bool := !(n == 0)

/-- `nc_file_exists`: the path is present in the filesystem. -/
def nc_file_exists (fs : FSState) (p : BmPath) : Bool :=
  (fs.files.lookup p).isSome

/-- `cbm_files_match`: both files exist and have identical bytes. -/
def cbm_files_match (fs : FSState) (a b : BmPath) : Bool :=
  match fs.files.lookup a, fs.files.lookup b with
  | some x, some y => x == y
  | _, _ => false

/-- Replace the binding of `p` in an association list. -/
def setFile (files : List (BmPath × Bytes)) (p : BmPath) (b : Bytes) :
    List (BmPath × Bytes) :=
  (p, b) :: files.filter (fun e => !(e.1 == p))

/-- `nc_mkdir_p`: create a directory (parents implied); fails only per the
oracle, and on failure changes nothing. -/
def nc_mkdir_p (fs : FSState) (p : BmPath) : Bool × FSState :=
  if fs.mkdirFail.contains p then (false, fs)
  else (true, { fs with dirs := if fs.dirs.contains p then fs.dirs else p :: fs.dirs })

/-- `copy_file_atomic`: atomically copy `src` to `dst`.  Fails when the
source is absent or the oracle says the write fails; on failure the
destination is untouched (atomicity of the collaborator primitive). -/
def copy_file_atomic (fs : FSState) (src dst : BmPath) : Bool × FSState :=
  match fs.files.lookup src with
  | none => (false, fs)
  | some b =>
      if fs.copyFail.contains (src, dst) then (false, fs)
      else (true, { fs with files := setFile fs.files dst b })

/-- `bootvar_has_boot_rec`: a boot record referencing `p` exists. -/
def bootvar_has_boot_rec (fw : FWState) (p : BmPath) : Bool :=
  fw.bootRecs.contains p

/-- `bootvar_create`: create a boot record for `p`; returns 0 on success
(nonzero status is failure, as tested by the C code). -/
def bootvar_create (fw : FWState) (p : BmPath) : Int × FWState :=
  if fw.createFail then (1, fw)
  else (0, { fw with bootRecs := if fw.bootRecs.contains p then fw.bootRecs else p :: fw.bootRecs })

/-- `dirname`: everything before the last path separator. -/
def dirname (p : BmPath) : BmPath :=
  String.intercalate "/" ((p.splitOn "/").dropLast)

/-- `exists_identical(path, spath)` from shim-systemd.c: the file at `path`
exists, and when `spath` is non-NULL it is byte-identical to it. -/
def exists_identical (fs : FSState) (path : BmPath) (spath : Option BmPath) : Bool :=
  if !(nc_file_exists fs path) then false
  else
    match spath with
    | some sp => cbm_files_match fs path sp
    | none => true

/-- The lazy memoization prelude shared verbatim by
`shim_systemd_needs_install` and `shim_systemd_needs_update`:
if `has_boot_rec < 0`, query the firmware in live mode, or force `1` in
image mode.  Returns the updated globals and the query trace. -/
def resolveBootRec (ps : PluginState) (fw : FWState) : PluginState × Trace :=
  if ps.has_boot_rec < 0 then
    if !ps.is_image_mode then
      ({ ps with has_boot_rec := if bootvar_has_boot_rec fw ps.shim_dst_esp then 1 else 0 },
       ⟨1, 0, []⟩)
    else
      ({ ps with has_boot_rec := 1 }, ⟨0, 0, []⟩)
  else (ps, ⟨0, 0, []⟩)

/-- `shim_systemd_needs_install`. -/
def shim_systemd_needs_install (ps : PluginState) (w : World) : Bool × PluginState × Trace :=
  let r := resolveBootRec ps w.fw
  if !(exists_identical w.fs r.1.shim_dst_host none) then (true, r.1, r.2)
  else if !(exists_identical w.fs r.1.systemd_dst_host none) then (true, r.1, r.2)
  else (!(cTrue r.1.has_boot_rec), r.1, r.2)

/-- `shim_systemd_needs_update`. -/
def shim_systemd_needs_update (ps : PluginState) (w : World) : Bool × PluginState × Trace :=
  let r := resolveBootRec ps w.fw
  if !(exists_identical w.fs r.1.shim_dst_host (some r.1.shim_src)) then (true, r.1, r.2)
  else if !(exists_identical w.fs r.1.systemd_dst_host (some r.1.systemd_src)) then (true, r.1, r.2)
  else (!(cTrue r.1.has_boot_rec), r.1, r.2)

/-- `make_layout`: create the kernel directory, then the loader
config-entries directory, then (image mode only) the fallback directory. -/
def make_layout (ps : PluginState) (fs : FSState) : Bool × FSState :=
  let m1 := nc_mkdir_p fs ps.kernel_dst_host
  if !m1.1 then (false, m1.2)
  else
    let m2 := nc_mkdir_p m1.2 (ps.boot_root ++ "/loader/entries")
    if !m2.1 then (false, m2.2)
    else if ps.is_image_mode then
      nc_mkdir_p m2.2 (dirname ps.efi_fallback_dst_host)
    else (true, m2.2)

/-- `shim_systemd_install_fallback_bootloader`: copy the second-stage
loader over the fixed fallback path. -/
def shim_systemd_install_fallback_bootloader (ps : PluginState) (fs : FSState) : Bool × FSState :=
  copy_file_atomic fs ps.systemd_src ps.efi_fallback_dst_host

/-- `shim_systemd_install`: layout, copy shim, copy systemd-boot, then the
mode-dependent step.  Uses `has_boot_rec` as cached, without resolving it
and without updating it after `bootvar_create`. -/
def shim_systemd_install (ps : PluginState) (w : World) : Bool × World × Trace :=
  let L := make_layout ps w.fs
  if !L.1 then (false, ⟨L.2, w.fw⟩, Trace.zero)
  else
    let c1 := copy_file_atomic L.2 ps.shim_src ps.shim_dst_host
    if !c1.1 then (false, ⟨c1.2, w.fw⟩, Trace.zero)
    else
      let c2 := copy_file_atomic c1.2 ps.systemd_src ps.systemd_dst_host
      if !c2.1 then (false, ⟨c2.2, w.fw⟩, Trace.zero)
      else
        if !ps.is_image_mode then
          if !(cTrue ps.has_boot_rec) then
            let bc := bootvar_create w.fw ps.shim_dst_esp
            if !(bc.1 == 0) then (false, ⟨c2.2, bc.2⟩, ⟨0, 1, []⟩)
            else (true, ⟨c2.2, bc.2⟩, ⟨0, 1, []⟩)
          else (true, ⟨c2.2, w.fw⟩, Trace.zero)
        else
          let fb := shim_systemd_install_fallback_bootloader ps c2.2
          (fb.1, ⟨fb.2, w.fw⟩, Trace.zero)

/-- `shim_systemd_update`: literally re-runs `shim_systemd_install`. -/
def shim_systemd_update (ps : PluginState) (w : World) : Bool × World × Trace :=
  shim_systemd_install ps w

/-- `shim_systemd_remove`: prints a notice and reports success, touching
nothing. -/
def shim_systemd_remove (_ps : PluginState) (w : World) : Bool × World × Trace :=
  (true, w, ⟨0, 0, ["shim_systemd_remove is not implemented"]⟩)

/-! ### Concrete states used by closed evaluation theorems and witnesses -/

/-- Live-mode plugin state whose boot-record cache has been resolved to
`absent` (0), as the orchestrator flow produces via `needs_install`. -/
def ps0 : PluginState :=
  { shim_src := "/u/shim.efi"
    systemd_src := "/u/sdboot.efi"
    shim_dst_host := "/b/EFI/ns/bootloaderx64.efi"
    systemd_dst_host := "/b/EFI/ns/loaderx64.efi"
    shim_dst_esp := "/EFI/ns/bootloaderx64.efi"
    efi_fallback_dst_host := "/b/EFI/Boot/BOOTX64.EFI"
    kernel_dst_host := "/b/EFI/ns/kernel"
    boot_root := "/b"
    is_image_mode := false
    has_boot_rec := 0 }

/-- Same live-mode state with the cache still unqueried (-1), as right
after `shim_systemd_init`. -/
def ps2 : PluginState := { ps0 with has_boot_rec := -1 }

/-- World with both source binaries present, empty ESP, no firmware boot
records, and no collaborator failures. -/
def w0 : World :=
  { fs := { files := [("/u/shim.efi", [1, 2]), ("/u/sdboot.efi", [3, 4])]
            dirs := [], copyFail := [], mkdirFail := [] }
    fw := { bootRecs := [], createFail := false } }

/-- World where the shim source binary is missing, so the first copy step
of `install` fails. -/
def w6 : World :=
  { fs := { files := [("/u/sdboot.efi", [3, 4])]
            dirs := [], copyFail := [], mkdirFail := [] }
    fw := { bootRecs := [], createFail := false } }

/-! ### Helper lemmas -/

/-- The value the tri-state cache holds after the lazy resolution prelude. -/
def resolvedVal (ps : PluginState) (fw : FWState) : Int :=
  if ps.has_boot_rec < 0 then
    if !ps.is_image_mode then (if bootvar_has_boot_rec fw ps.shim_dst_esp then 1 else 0)
    else 1
  else ps.has_boot_rec

theorem resolveBootRec_fst (ps : PluginState) (fw : FWState) :
    (resolveBootRec ps fw).1 = { ps with has_boot_rec := resolvedVal ps fw } := by
  unfold resolveBootRec resolvedVal
  split
  · split
    · rfl
    · rfl
  · rfl

theorem exists_identical_none (fs : FSState) (p : BmPath) :
    exists_identical fs p none = nc_file_exists fs p := by
  unfold exists_identical
  cases h : nc_file_exists fs p <;> simp [h]

theorem exists_identical_some (fs : FSState) (p s : BmPath) :
    exists_identical fs p (some s) = cbm_files_match fs p s := by
  unfold exists_identical nc_file_exists cbm_files_match
  cases h : fs.files.lookup p <;> simp [h]

theorem cbm_files_match_exists (fs : FSState) (a b : BmPath)
    (h : cbm_files_match fs a b = true) : nc_file_exists fs a = true := by
  unfold cbm_files_match at h
  unfold nc_file_exists
  cases ha : fs.files.lookup a <;> rw [ha] at h
  · cases hb : fs.files.lookup b <;> rw [hb] at h <;> exact absurd h (by simp)
  · rfl

theorem needs_install_fst (ps : PluginState) (w : World) :
    (shim_systemd_needs_install ps w).1 =
      (!(nc_file_exists w.fs ps.shim_dst_host) ||
       (!(nc_file_exists w.fs ps.systemd_dst_host) ||
        (resolvedVal ps w.fw == 0))) := by
  simp only [shim_systemd_needs_install, resolveBootRec_fst, exists_identical_none]
  cases h1 : nc_file_exists w.fs ps.shim_dst_host <;>
    cases h2 : nc_file_exists w.fs ps.systemd_dst_host <;>
      simp [cTrue]

theorem needs_update_fst (ps : PluginState) (w : World) :
    (shim_systemd_needs_update ps w).1 =
      (!(cbm_files_match w.fs ps.shim_dst_host ps.shim_src) ||
       (!(cbm_files_match w.fs ps.systemd_dst_host ps.systemd_src) ||
        (resolvedVal ps w.fw == 0))) := by
  simp only [shim_systemd_needs_update, resolveBootRec_fst, exists_identical_some]
  cases h1 : cbm_files_match w.fs ps.shim_dst_host ps.shim_src <;>
    cases h2 : cbm_files_match w.fs ps.systemd_dst_host ps.systemd_src <;>
      simp [cTrue]

/-- The memoized tri-state is still unresolved, or agrees with the
firmware state (live mode); in image mode it was never set to `0`.
This holds for every cache value the resolution prelude can produce
against an unchanged firmware state. -/
def cacheConsistent (ps : PluginState) (fw : FWState) : Prop :=
  (ps.is_image_mode = false →
    (ps.has_boot_rec = -1 ∨
     ps.has_boot_rec = (if bootvar_has_boot_rec fw ps.shim_dst_esp then 1 else 0))) ∧
  (ps.is_image_mode = true → (ps.has_boot_rec = -1 ∨ ps.has_boot_rec = 1))

theorem resolvedVal_eq_zero (ps : PluginState) (fw : FWState) (h : cacheConsistent ps fw) :
    (resolvedVal ps fw == 0) =
      (!ps.is_image_mode && !(bootvar_has_boot_rec fw ps.shim_dst_esp)) := by
  obtain ⟨hl, hi⟩ := h
  unfold resolvedVal
  cases him : ps.is_image_mode
  · rcases hl him with hc | hc
    · rw [hc]
      cases hr : bootvar_has_boot_rec fw ps.shim_dst_esp <;> simp [hr]
    · rw [hc]
      cases hr : bootvar_has_boot_rec fw ps.shim_dst_esp <;> simp [hr]
  · rcases hi him with hc | hc <;> rw [hc] <;> simp

theorem lookup_filter_ne (l : List (BmPath × Bytes)) (p q : BmPath) (h : ¬q = p) :
    (l.filter (fun e => !(e.1 == p))).lookup q = l.lookup q := by
  induction l with
  | nil => rfl
  | cons a l ih =>
    obtain ⟨k, v⟩ := a
    by_cases hk : k = p
    · have hqk : (q == k) = false := beq_eq_false_iff_ne.mpr (by rw [hk]; exact h)
      have hkp : (k == p) = true := beq_iff_eq.mpr hk
      simp [List.filter_cons, List.lookup, hkp, hqk, ih]
    · have hkp : (k == p) = false := beq_eq_false_iff_ne.mpr hk
      by_cases hq : q = k
      · have hqk : (q == k) = true := beq_iff_eq.mpr hq
        simp [List.filter_cons, List.lookup, hkp, hqk]
      · have hqk : (q == k) = false := beq_eq_false_iff_ne.mpr hq
        simp [List.filter_cons, List.lookup, hkp, hqk, ih]

theorem lookup_setFile_self (l : List (BmPath × Bytes)) (p : BmPath) (b : Bytes) :
    (setFile l p b).lookup p = some b := by
  simp [setFile, List.lookup]

theorem lookup_setFile_ne (l : List (BmPath × Bytes)) (p q : BmPath) (b : Bytes)
    (h : ¬q = p) : (setFile l p b).lookup q = l.lookup q := by
  have hqp : (q == p) = false := beq_eq_false_iff_ne.mpr h
  simp [setFile, List.lookup, hqp, lookup_filter_ne l p q h]

theorem copy_file_atomic_fail (fs : FSState) (s d : BmPath)
    (h : (copy_file_atomic fs s d).1 = false) : (copy_file_atomic fs s d).2 = fs := by
  cases hl : fs.files.lookup s
  · simp [copy_file_atomic, hl]
  · by_cases hc : (s, d) ∈ fs.copyFail
    · simp [copy_file_atomic, hl, hc]
    · simp [copy_file_atomic, hl, hc] at h

theorem copy_file_atomic_success (fs : FSState) (s d : BmPath)
    (h : (copy_file_atomic fs s d).1 = true) :
    ∃ b, fs.files.lookup s = some b ∧
      (copy_file_atomic fs s d).2.files = setFile fs.files d b := by
  cases hl : fs.files.lookup s
  · simp [copy_file_atomic, hl] at h
  · by_cases hc : (s, d) ∈ fs.copyFail
    · simp [copy_file_atomic, hl, hc] at h
    · exact ⟨_, rfl, by simp [copy_file_atomic, hl, hc]⟩

theorem copy_file_atomic_match (fs : FSState) (s d : BmPath)
    (h : (copy_file_atomic fs s d).1 = true) :
    cbm_files_match (copy_file_atomic fs s d).2 d s = true := by
  obtain ⟨b, hl, hf⟩ := copy_file_atomic_success fs s d h
  unfold cbm_files_match
  rw [hf, lookup_setFile_self]
  by_cases hsd : s = d
  · subst hsd
    rw [lookup_setFile_self]
    simp
  · rw [lookup_setFile_ne _ _ _ _ hsd, hl]
    simp

theorem nc_mkdir_p_files (fs : FSState) (p : BmPath) :
    ((nc_mkdir_p fs p).2).files = fs.files := by
  unfold nc_mkdir_p
  split <;> rfl

theorem make_layout_files (ps : PluginState) (fs : FSState) :
    ((make_layout ps fs).2).files = fs.files := by
  simp only [make_layout]
  split
  · simp [nc_mkdir_p_files]
  · split
    · simp [nc_mkdir_p_files]
    · split
      · simp [nc_mkdir_p_files]
      · simp [nc_mkdir_p_files]

/-! ### Claim theorems -/

/-- C7: `shim_systemd_update` is extensionally equal to
`shim_systemd_install`: on every plugin state and world it performs the
same effects and returns the same result. -/
theorem update_is_install (ps : PluginState) (w : World) :
    shim_systemd_update ps w = shim_systemd_install ps w := rfl

/-- C8: `shim_systemd_remove` always reports success, leaves the
filesystem, firmware and resolved-path state untouched, and only emits
the not-implemented diagnostic notice. -/
theorem remove_reports_success_without_effects (ps : PluginState) (w : World) :
    shim_systemd_remove ps w =
      (true, w, ⟨0, 0, ["shim_systemd_remove is not implemented"]⟩) := rfl

/-- C9: `needs_update` is stricter than `needs_install`: whenever
`shim_systemd_needs_install` returns true on a process state, so does
`shim_systemd_needs_update` on the same state. -/
theorem needs_update_stricter (ps : PluginState) (w : World)
    (h : (shim_systemd_needs_install ps w).1 = true) :
    (shim_systemd_needs_update ps w).1 = true := by
  rw [needs_install_fst] at h
  rw [needs_update_fst]
  simp only [Bool.or_eq_true, Bool.not_eq_true'] at h ⊢
  rcases h with h | h | h
  · left
    cases hm : cbm_files_match w.fs ps.shim_dst_host ps.shim_src
    · rfl
    · exact absurd (cbm_files_match_exists _ _ _ hm) (by rw [h]; simp)
  · right; left
    cases hm : cbm_files_match w.fs ps.systemd_dst_host ps.systemd_src
    · rfl
    · exact absurd (cbm_files_match_exists _ _ _ hm) (by rw [h]; simp)
  · right; right; exact h

/-- Witness for C9: on the unqueried live state with an empty ESP,
`needs_install` is true, hence so is `needs_update`. -/
theorem needs_update_stricter_witness :
    (shim_systemd_needs_update ps2 w0).1 = true :=
  needs_update_stricter ps2 w0 (by decide)

/-- C10 (implicit): in live mode, when the boot-record cache is still in
its initial unqueried state (-1), `shim_systemd_install` makes no
`bootvar_create` call at all and leaves the firmware untouched — for
every world, in particular when no boot record exists — because the C
guard `if (!has_boot_rec)` treats the truthy -1 as "record present". -/
theorem install_unqueried_cache_skips_boot_record (ps : PluginState) (w : World)
    (hm : ps.is_image_mode = false) (hc : ps.has_boot_rec = -1) :
    (shim_systemd_install ps w).2.2.creates = 0 ∧
      (shim_systemd_install ps w).2.1.fw = w.fw := by
  have hct : cTrue ps.has_boot_rec = true := by rw [hc]; rfl
  simp only [shim_systemd_install, hm, hct]
  split
  · exact ⟨rfl, rfl⟩
  · split
    · exact ⟨rfl, rfl⟩
    · split
      · exact ⟨rfl, rfl⟩
      · exact ⟨rfl, rfl⟩

/-- Witness for C10 at the concrete unqueried live state: no firmware
record exists, yet install performs zero creation calls. -/
theorem install_unqueried_cache_skips_boot_record_witness :
    (shim_systemd_install ps2 w0).2.2.creates = 0 ∧
      (shim_systemd_install ps2 w0).2.1.fw = w0.fw :=
  install_unqueried_cache_skips_boot_record ps2 w0 (by decide) (by decide)

/-- C1: evaluation at the failing input.  In live mode with the cache
resolved to "absent" (the state the orchestrator reaches via
`needs_install` when no record exists), both install calls succeed and
the deployed bytes are identical, but each call issues a `bootvar_create`
— two creation calls in total, and the second happens although the
record already exists after the first call. -/
theorem install_twice_issues_second_create :
    (shim_systemd_install ps0 w0).1 = true ∧
    (shim_systemd_install ps0 (shim_systemd_install ps0 w0).2.1).1 = true ∧
    (shim_systemd_install ps0 (shim_systemd_install ps0 w0).2.1).2.1.fs.files =
      (shim_systemd_install ps0 w0).2.1.fs.files ∧
    bootvar_has_boot_rec (shim_systemd_install ps0 w0).2.1.fw ps0.shim_dst_esp = true ∧
    (shim_systemd_install ps0 w0).2.2.creates = 1 ∧
    (shim_systemd_install ps0 (shim_systemd_install ps0 w0).2.1).2.2.creates = 1 := by
  decide

/-- C5: evaluation at the failing input.  After a successful install from
the cache-resolved-to-absent live state, both artifacts are deployed and
the firmware record exists, and the cache is not mutated in between, yet
`needs_install` still returns true (the memoized 0 is stale). -/
theorem needs_install_true_after_successful_install :
    (shim_systemd_install ps0 w0).1 = true ∧
    nc_file_exists (shim_systemd_install ps0 w0).2.1.fs ps0.shim_dst_host = true ∧
    nc_file_exists (shim_systemd_install ps0 w0).2.1.fs ps0.systemd_dst_host = true ∧
    bootvar_has_boot_rec (shim_systemd_install ps0 w0).2.1.fw ps0.shim_dst_esp = true ∧
    (shim_systemd_needs_install ps0 (shim_systemd_install ps0 w0).2.1).1 = true := by
  decide

/-- C6: `shim_systemd_install` runs layout, then the shim copy, then the
second-stage copy, then the mode-dependent step; the layout step touches
no file contents, and a failure of the layout or of either copy makes
install return false immediately with the filesystem exactly as the
failing step left it (directories created before the failure remain) and
with no boot-record call issued. -/
theorem install_aborts_on_copy_failure (ps : PluginState) (w : World) :
    ((make_layout ps w.fs).2).files = w.fs.files ∧
    ((make_layout ps w.fs).1 = false →
      shim_systemd_install ps w = (false, ⟨(make_layout ps w.fs).2, w.fw⟩, Trace.zero)) ∧
    ((make_layout ps w.fs).1 = true →
      (copy_file_atomic (make_layout ps w.fs).2 ps.shim_src ps.shim_dst_host).1 = false →
      shim_systemd_install ps w = (false, ⟨(make_layout ps w.fs).2, w.fw⟩, Trace.zero)) ∧
    ((make_layout ps w.fs).1 = true →
      (copy_file_atomic (make_layout ps w.fs).2 ps.shim_src ps.shim_dst_host).1 = true →
      (copy_file_atomic (copy_file_atomic (make_layout ps w.fs).2 ps.shim_src ps.shim_dst_host).2
          ps.systemd_src ps.systemd_dst_host).1 = false →
      shim_systemd_install ps w =
        (false,
         ⟨(copy_file_atomic (make_layout ps w.fs).2 ps.shim_src ps.shim_dst_host).2, w.fw⟩,
         Trace.zero)) := by
  refine ⟨make_layout_files ps w.fs, ?_, ?_, ?_⟩
  · intro hL
    simp [shim_systemd_install, hL]
  · intro hL h1
    simp [shim_systemd_install, hL, h1, copy_file_atomic_fail _ _ _ h1]
  · intro hL h1 h2
    simp [shim_systemd_install, hL, h1, h2, copy_file_atomic_fail _ _ _ h2]

/-- Witness for C6: with the shim source binary missing, the first copy
fails and install aborts right there with no boot-record call. -/
theorem install_aborts_on_copy_failure_witness :
    shim_systemd_install ps0 w6 = (false, ⟨(make_layout ps0 w6.fs).2, w6.fw⟩, Trace.zero) :=
  (install_aborts_on_copy_failure ps0 w6).2.2.1 (by decide) (by decide)

/-- C3: when the memoized tri-state is unresolved or agrees with the
firmware (the states the lazy once-per-process memoization produces),
`shim_systemd_needs_install` returns true iff the deployed first-stage
binary is absent, or the deployed second-stage binary is absent, or — in
live mode only — no firmware boot record references the first-stage
loader's ESP-relative path.  Only presence and firmware state appear on
the right-hand side: file contents are not compared, and in image mode
the boot-record condition is satisfied. -/
theorem needs_install_spec (ps : PluginState) (w : World)
    (h : cacheConsistent ps w.fw) :
    ((shim_systemd_needs_install ps w).1 = true ↔
      (nc_file_exists w.fs ps.shim_dst_host = false ∨
       nc_file_exists w.fs ps.systemd_dst_host = false ∨
       (ps.is_image_mode = false ∧
        bootvar_has_boot_rec w.fw ps.shim_dst_esp = false))) := by
  rw [needs_install_fst, resolvedVal_eq_zero ps w.fw h]
  simp [Bool.or_eq_true, Bool.and_eq_true, Bool.not_eq_true']

/-- Witness for C3 at the unqueried live state over the empty ESP: both
sides of the equivalence hold (the shim artifact is absent). -/
theorem needs_install_spec_witness :
    ((shim_systemd_needs_install ps2 w0).1 = true ↔
      (nc_file_exists w0.fs ps2.shim_dst_host = false ∨
       nc_file_exists w0.fs ps2.systemd_dst_host = false ∨
       (ps2.is_image_mode = false ∧
        bootvar_has_boot_rec w0.fw ps2.shim_dst_esp = false))) :=
  needs_install_spec ps2 w0 (by constructor <;> intro <;> left <;> decide)

/-- C4: under the same cache-consistency condition,
`shim_systemd_needs_update` returns true iff a deployed artifact is
absent or not byte-identical to its source under the system prefix
(`cbm_files_match` is false exactly in those cases; the model carries
only bytes, so the comparison cannot depend on timestamps or
permissions), or — live mode only — no firmware boot record exists. -/
theorem needs_update_spec (ps : PluginState) (w : World)
    (h : cacheConsistent ps w.fw) :
    ((shim_systemd_needs_update ps w).1 = true ↔
      (cbm_files_match w.fs ps.shim_dst_host ps.shim_src = false ∨
       cbm_files_match w.fs ps.systemd_dst_host ps.systemd_src = false ∨
       (ps.is_image_mode = false ∧
        bootvar_has_boot_rec w.fw ps.shim_dst_esp = false))) := by
  rw [needs_update_fst, resolvedVal_eq_zero ps w.fw h]
  simp [Bool.or_eq_true, Bool.and_eq_true, Bool.not_eq_true']

/-- Witness for C4 at the unqueried live state over the empty ESP. -/
theorem needs_update_spec_witness :
    ((shim_systemd_needs_update ps2 w0).1 = true ↔
      (cbm_files_match w0.fs ps2.shim_dst_host ps2.shim_src = false ∨
       cbm_files_match w0.fs ps2.systemd_dst_host ps2.systemd_src = false ∨
       (ps2.is_image_mode = false ∧
        bootvar_has_boot_rec w0.fw ps2.shim_dst_esp = false))) :=
  needs_update_spec ps2 w0 (by constructor <;> intro <;> left <;> decide)

/-- C2 counterexample: in live mode with the cache still unqueried (-1)
and no firmware boot record, install succeeds but makes zero
`bootvar_create` calls — not the "exactly one creation call when none
exists" the claim states for live mode. -/
theorem install_live_mode_zero_creates_cex :
    ps2.is_image_mode = false ∧
    bootvar_has_boot_rec w0.fw ps2.shim_dst_esp = false ∧
    (shim_systemd_install ps2 w0).1 = true ∧
    (shim_systemd_install ps2 w0).2.2.creates = 0 := by
  decide

/-- Evaluation of `install` in image mode when layout and both copies
succeed: the result is the fallback copy step, firmware untouched. -/
theorem install_image_mode_eval (ps : PluginState) (w : World)
    (him : ps.is_image_mode = true)
    (hL : (make_layout ps w.fs).1 = true)
    (h1 : (copy_file_atomic (make_layout ps w.fs).2 ps.shim_src ps.shim_dst_host).1 = true)
    (h2 : (copy_file_atomic (copy_file_atomic (make_layout ps w.fs).2 ps.shim_src
        ps.shim_dst_host).2 ps.systemd_src ps.systemd_dst_host).1 = true) :
    shim_systemd_install ps w =
      ((copy_file_atomic (copy_file_atomic (copy_file_atomic (make_layout ps w.fs).2 ps.shim_src
          ps.shim_dst_host).2 ps.systemd_src ps.systemd_dst_host).2 ps.systemd_src
          ps.efi_fallback_dst_host).1,
       ⟨(copy_file_atomic (copy_file_atomic (copy_file_atomic (make_layout ps w.fs).2 ps.shim_src
          ps.shim_dst_host).2 ps.systemd_src ps.systemd_dst_host).2 ps.systemd_src
          ps.efi_fallback_dst_host).2, w.fw⟩, Trace.zero) := by
  simp [shim_systemd_install, shim_systemd_install_fallback_bootloader, him, hL, h1, h2]

/-- Evaluation of `install` in live mode with the cache truthy (record
believed present) when layout and both copies succeed: success, firmware
untouched, no creation call. -/
theorem install_live_cached_eval (ps : PluginState) (w : World)
    (him : ps.is_image_mode = false)
    (hct : cTrue ps.has_boot_rec = true)
    (hL : (make_layout ps w.fs).1 = true)
    (h1 : (copy_file_atomic (make_layout ps w.fs).2 ps.shim_src ps.shim_dst_host).1 = true)
    (h2 : (copy_file_atomic (copy_file_atomic (make_layout ps w.fs).2 ps.shim_src
        ps.shim_dst_host).2 ps.systemd_src ps.systemd_dst_host).1 = true) :
    shim_systemd_install ps w =
      (true,
       ⟨(copy_file_atomic (copy_file_atomic (make_layout ps w.fs).2 ps.shim_src
          ps.shim_dst_host).2 ps.systemd_src ps.systemd_dst_host).2, w.fw⟩, Trace.zero) := by
  simp [shim_systemd_install, him, hct, hL, h1, h2]

/-- Evaluation of `install` in live mode with the cache zero (record
believed absent) when layout and both copies succeed: exactly one
`bootvar_create` call is issued. -/
theorem install_live_uncached_creates (ps : PluginState) (w : World)
    (him : ps.is_image_mode = false)
    (hct : cTrue ps.has_boot_rec = false)
    (hL : (make_layout ps w.fs).1 = true)
    (h1 : (copy_file_atomic (make_layout ps w.fs).2 ps.shim_src ps.shim_dst_host).1 = true)
    (h2 : (copy_file_atomic (copy_file_atomic (make_layout ps w.fs).2 ps.shim_src
        ps.shim_dst_host).2 ps.systemd_src ps.systemd_dst_host).1 = true) :
    (shim_systemd_install ps w).2.2 = ⟨0, 1, []⟩ := by
  simp [shim_systemd_install, him, hct, hL, h1, h2]
  split <;> rfl

/-- C2 (amended): mode divergence of `install`.  In image mode install
makes no firmware query or creation call, leaves firmware state
untouched, and on success the fixed fallback path holds bytes identical
to the second-stage loader source.  In live mode, provided the presence
cache has been resolved against the current firmware state (as a prior
`needs_install`/`needs_update` call leaves it) and the layout and copy
steps succeed, install makes exactly one `bootvar_create` call when no
boot record exists and zero when one already exists. -/
theorem install_mode_divergence (ps : PluginState) (w : World) :
    (ps.is_image_mode = true →
      (shim_systemd_install ps w).2.2.queries = 0 ∧
      (shim_systemd_install ps w).2.2.creates = 0 ∧
      (shim_systemd_install ps w).2.1.fw = w.fw ∧
      ((shim_systemd_install ps w).1 = true →
        cbm_files_match (shim_systemd_install ps w).2.1.fs ps.efi_fallback_dst_host
          ps.systemd_src = true)) ∧
    (ps.is_image_mode = false →
      ps.has_boot_rec = (if bootvar_has_boot_rec w.fw ps.shim_dst_esp then 1 else 0) →
      (make_layout ps w.fs).1 = true →
      (copy_file_atomic (make_layout ps w.fs).2 ps.shim_src ps.shim_dst_host).1 = true →
      (copy_file_atomic (copy_file_atomic (make_layout ps w.fs).2 ps.shim_src
          ps.shim_dst_host).2 ps.systemd_src ps.systemd_dst_host).1 = true →
      (shim_systemd_install ps w).2.2.creates =
        (if bootvar_has_boot_rec w.fw ps.shim_dst_esp then 0 else 1)) := by
  constructor
  · intro him
    by_cases hL : (make_layout ps w.fs).1 = true
    · by_cases h1 :
        (copy_file_atomic (make_layout ps w.fs).2 ps.shim_src ps.shim_dst_host).1 = true
      · by_cases h2 :
          (copy_file_atomic (copy_file_atomic (make_layout ps w.fs).2 ps.shim_src
            ps.shim_dst_host).2 ps.systemd_src ps.systemd_dst_host).1 = true
        · rw [install_image_mode_eval ps w him hL h1 h2]
          exact ⟨rfl, rfl, rfl, fun hfb => copy_file_atomic_match _ _ _ hfb⟩
        · have h2f :
            (copy_file_atomic (copy_file_atomic (make_layout ps w.fs).2 ps.shim_src
              ps.shim_dst_host).2 ps.systemd_src ps.systemd_dst_host).1 = false :=
            Bool.eq_false_iff.mpr h2
          simp [shim_systemd_install, Trace.zero, him, hL, h1, h2f]
      · have h1f :
          (copy_file_atomic (make_layout ps w.fs).2 ps.shim_src ps.shim_dst_host).1 = false :=
          Bool.eq_false_iff.mpr h1
        simp [shim_systemd_install, Trace.zero, him, hL, h1f]
    · have hLf : (make_layout ps w.fs).1 = false := Bool.eq_false_iff.mpr hL
      simp [shim_systemd_install, Trace.zero, him, hLf]
  · intro him hcache hL h1 h2
    cases hr : bootvar_has_boot_rec w.fw ps.shim_dst_esp
    · rw [hr] at hcache
      have hct : cTrue ps.has_boot_rec = false := by rw [hcache]; rfl
      rw [install_live_uncached_creates ps w him hct hL h1 h2]
      rfl
    · rw [hr] at hcache
      have hct : cTrue ps.has_boot_rec = true := by rw [hcache]; rfl
      rw [install_live_cached_eval ps w him hct hL h1 h2]
      rfl

/-- Witness for C2 (amended), live conjunct: at the cache-resolved state
with no firmware record and all steps succeeding, exactly one creation
call is made. -/
theorem install_mode_divergence_witness :
    (shim_systemd_install ps0 w0).2.2.creates =
      (if bootvar_has_boot_rec w0.fw ps0.shim_dst_esp then 0 else 1) :=
  (install_mode_divergence ps0 w0).2 (by decide) (by decide) (by decide) (by decide) (by decide)

/-- World in which both artifacts are deployed byte-identical to their
sources and the firmware holds the boot record — the on-disk/firmware
state right after a successful live-mode install. -/
def wStale : World :=
  { fs := { files := [("/u/shim.efi", [1, 2]), ("/u/sdboot.efi", [3, 4]),
                      ("/b/EFI/ns/bootloaderx64.efi", [1, 2]),
                      ("/b/EFI/ns/loaderx64.efi", [3, 4])]
            dirs := ["/b/EFI/ns/kernel", "/b/loader/entries"]
            copyFail := [], mkdirFail := [] }
    fw := { bootRecs := ["/EFI/ns/bootloaderx64.efi"], createFail := false } }

/-- C3 counterexample: with the memoized cache stale at 0 (the state the
process reaches after needs_install found no record and install then
created one), `needs_install` returns true although both artifacts are
deployed and a firmware boot record references the first-stage loader —
the claimed unconditional "if and only if" fails. -/
theorem needs_install_spec_cex :
    (shim_systemd_needs_install ps0 wStale).1 = true ∧
    nc_file_exists wStale.fs ps0.shim_dst_host = true ∧
    nc_file_exists wStale.fs ps0.systemd_dst_host = true ∧
    ps0.is_image_mode = false ∧
    bootvar_has_boot_rec wStale.fw ps0.shim_dst_esp = true := by
  decide

/-- C4 counterexample: in the same stale-cache state, `needs_update`
returns true although both artifacts are byte-identical to their sources
and the firmware boot record exists. -/
theorem needs_update_spec_cex :
    (shim_systemd_needs_update ps0 wStale).1 = true ∧
    cbm_files_match wStale.fs ps0.shim_dst_host ps0.shim_src = true ∧
    cbm_files_match wStale.fs ps0.systemd_dst_host ps0.systemd_src = true ∧
    ps0.is_image_mode = false ∧
    bootvar_has_boot_rec wStale.fw ps0.shim_dst_esp = true := by
  decide
